import Mathlib

/-!
Shallow embedding of the extraction-and-pricing core of src/entrypoint.py:
the functions extract_data_from_digikey_search_response (lines 116-223) and
get_prices_for_target_qtys (lines 227-292), together with theorems checking
the specification claims about them.

Conventions of the embedding: a dictionary key that may be absent from the
JSON payload is an Option field, where none models an absent key; the Python
KeyError propagation is the Except monad; Python float prices are exact
rationals; quantities are natural numbers.  The in-place mutation that the
Cut-Tape/Digi-Reel merge performs on the payload list (the extracted record
aliases the list object stored inside the payload) is made explicit by
returning the post-call payload alongside the extracted record.
-/

namespace Digikey

/-- Occurrence test for a character pattern inside a character list: the
pattern is a prefix of the list or occurs in its tail. -/
def charListContains (pat : List Char) : List Char → Bool
  | [] => pat.isPrefixOf []
  | c :: rest => pat.isPrefixOf (c :: rest) || charListContains pat rest

/-- Python substring test, `pat in s`. -/
def strContainsSub (s pat : String) : Bool :=
  charListContains pat.toList s.toList

/-- One row of a StandardPricing table: a price break.  BreakQuantity is the
JSON integer break quantity, UnitPrice the (exact) unit price. -/
structure StdPricingRow where
  BreakQuantity : Nat
  UnitPrice : ℚ
deriving DecidableEq

/-- One packaging variant from ProductVariations.  The source reads the name
through variation["PackageType"]["Name"]; the embedding keeps just that
name, which is the only part of the PackageType object the core touches. -/
structure ProductVariation where
  PackageType : String
  StandardPricing : List StdPricingRow
deriving DecidableEq

/-- The per-PCB-quantity dictionary pricing_for_pcb_qty of
get_prices_for_target_qtys.  The keys break_qty, price_per_unit and
total_price are only inserted on some paths, hence Option. -/
structure PricingForPcbQty where
  pcb_qty : Nat
  total_part_qty : Nat
  break_qty : Option Nat := none
  price_per_unit : Option ℚ := none
  total_price : Option ℚ := none
deriving DecidableEq

/-- The per-packaging-variant dictionary pricing_for_price_type of
get_prices_for_target_qtys. -/
structure PricingForPriceType where
  package_type : String
  cogs : List PricingForPcbQty
deriving DecidableEq

/-- One entry of the Parameters list.  The code first tests
"ParameterText" in parameter.keys(), so that key is an Option; ValueText is
only read when ParameterText is present and is kept total here. -/
structure Parameter where
  ParameterText : Option String
  ValueText : String
deriving DecidableEq

/-- The nested Classifications object.  Every sub-key may be absent. -/
structure Classifications where
  RohsStatus : Option String
  MoistureSensitivityLevel : Option String
  ReachStatus : Option String
  ExportControlClassNumber : Option String
  HtsusCode : Option String
deriving DecidableEq

/-- The recursive Category object: a name and the ChildCategories list. -/
inductive Category where
  | node (Name : String) (ChildCategories : List Category)

/-- Name of a category node. -/
def Category.Name : Category → String
  | .node n _ => n

/-- ChildCategories of a category node. -/
def Category.ChildCategories : Category → List Category
  | .node _ c => c

/-- The Description sub-object of a product. -/
structure DescriptionObj where
  ProductDescription : Option String
deriving DecidableEq

/-- The Manufacturer sub-object of a product. -/
structure ManufacturerObj where
  Name : Option String
deriving DecidableEq

/-- The ProductStatus sub-object of a product. -/
structure ProductStatusObj where
  Status : Option String
deriving DecidableEq

/-- One exact-match product of a keyword-search response.  Each field models
the JSON key of the same name; none models the key being absent. -/
structure Product where
  Description : Option DescriptionObj
  Manufacturer : Option ManufacturerObj
  ManufacturerProductNumber : Option String
  PhotoUrl : Option String
  DatasheetUrl : Option String
  ProductUrl : Option String
  QuantityAvailable : Option Nat
  ProductStatus : Option ProductStatusObj
  EndOfLife : Option Bool
  Discontinued : Option Bool
  ProductVariations : Option (List ProductVariation)
  Parameters : Option (List Parameter)
  Classifications : Option Classifications
  Category : Option Category

/-- A keyword-search response payload: the ExactMatches container.  The
field is an Option so that an absent ExactMatches key is representable. -/
structure SearchResponse where
  ExactMatches : Option (List Product)

/-- The ComponentData dataclass of the source (lines 21-50), with the same
field names.  Scalar fields default to None, associated_refdes to the empty
string, and the two list fields to empty lists. -/
structure ComponentData where
  associated_refdes : String := ""
  part_description : Option String := none
  mfr_name : Option String := none
  mfr_part_number : Option String := none
  photo_url : Option String := none
  datasheet_url : Option String := none
  product_url : Option String := none
  qty_available : Option Nat := none
  lifecycle_status : Option String := none
  eol_status : Option Bool := none
  discontinued_status : Option Bool := none
  pricing : Option (List ProductVariation) := none
  package_case : Option String := none
  supplier_device_package : Option String := none
  operating_temp : Option String := none
  xy_size : Option String := none
  height : Option String := none
  thickness : Option String := none
  ratings : Option String := none
  grade : Option String := none
  qualification : Option String := none
  rohs_status : Option String := none
  moisture_sensitivity_level : Option String := none
  reach_status : Option String := none
  eccn : Option String := none
  htsus : Option String := none
  categories : List String := []
  cogs_breakdown : List PricingForPriceType := []
deriving DecidableEq

/-- Reading a dictionary key: an absent key raises KeyError. -/
def getKey {α : Type} (o : Option α) : Except String α :=
  match o with
  | some a => Except.ok a
  | none => Except.error "KeyError"

/-- The display name the merge step writes (entrypoint.py line 163). -/
def mergedVariantName : String := "Cut Tape (CT) & Digi-Reel®"

/-- Indices i of pricing_variations whose name contains "Cut Tape"
(entrypoint.py lines 151-155). -/
def cutTapeIdxs (pricing_variations : List String) : List Nat :=
  (List.range pricing_variations.length).filter fun i =>
    strContainsSub (pricing_variations.getD i "") "Cut Tape"

/-- Indices i of pricing_variations whose name contains "Digi-Reel"
(entrypoint.py lines 156-160). -/
def digiReelIdxs (pricing_variations : List String) : List Nat :=
  (List.range pricing_variations.length).filter fun i =>
    strContainsSub (pricing_variations.getD i "") "Digi-Reel"

/-- Lines 147-165 of entrypoint.py: if both a Cut Tape and a Digi-Reel
variant exist, rename the first Cut Tape variant to mergedVariantName and
delete the first Digi-Reel variant.  The inner match on the indexed element
is total; its none branch is unreachable because every member of cutTapeIdxs
is below the length of the list. -/
def mergeCutTapeDigiReel (pricing : List ProductVariation) : List ProductVariation :=
  let pricing_variations := pricing.map (·.PackageType)
  match (cutTapeIdxs pricing_variations).head?, (digiReelIdxs pricing_variations).head? with
  | some ct, some dr =>
      (match pricing[ct]? with
       | some v => (pricing.set ct { v with PackageType := mergedVariantName }).eraseIdx dr
       | none => pricing.eraseIdx dr)
  | _, _ => pricing

/-- Line 176-177 of entrypoint.py: exact test assigning package_case. -/
def applyPackageCaseRule (t v : String) (d : ComponentData) : ComponentData :=
  if t == "Package / Case" then { d with package_case := some v } else d

/-- Line 179-180 of entrypoint.py: exact test assigning
supplier_device_package. -/
def applySupplierDevicePackageRule (t v : String) (d : ComponentData) : ComponentData :=
  if t == "Supplier Device Package" then { d with supplier_device_package := some v } else d

/-- Line 182-183 of entrypoint.py: exact test assigning operating_temp. -/
def applyOperatingTempRule (t v : String) (d : ComponentData) : ComponentData :=
  if t == "Operating Temperature" then { d with operating_temp := some v } else d

/-- Line 185-186 of entrypoint.py: substring test assigning xy_size. -/
def applyDimensionRule (t v : String) (d : ComponentData) : ComponentData :=
  if strContainsSub t "Dimension" then { d with xy_size := some v } else d

/-- Line 188-189 of entrypoint.py: substring test assigning height. -/
def applyHeightRule (t v : String) (d : ComponentData) : ComponentData :=
  if strContainsSub t "Height" then { d with height := some v } else d

/-- Line 190-191 of entrypoint.py: substring test assigning thickness. -/
def applyThicknessRule (t v : String) (d : ComponentData) : ComponentData :=
  if strContainsSub t "Thickness (Max)" then { d with thickness := some v } else d

/-- Line 193-194 of entrypoint.py: substring test assigning ratings. -/
def applyRatingsRule (t v : String) (d : ComponentData) : ComponentData :=
  if strContainsSub t "Ratings" then { d with ratings := some v } else d

/-- Line 196-197 of entrypoint.py: substring test assigning grade. -/
def applyGradeRule (t v : String) (d : ComponentData) : ComponentData :=
  if strContainsSub t "Grade" then { d with grade := some v } else d

/-- Line 199-200 of entrypoint.py: substring test assigning qualification. -/
def applyQualificationRule (t v : String) (d : ComponentData) : ComponentData :=
  if strContainsSub t "Qualification" then { d with qualification := some v } else d

/-- Lines 173-200 of entrypoint.py, the body of the parameter loop for one
parameter: the sequence of independent if statements above, executed in
source order.  A parameter without the ParameterText key is skipped. -/
def scanParameter (part_data : ComponentData) (parameter : Parameter) : ComponentData :=
  match parameter.ParameterText with
  | none => part_data
  | some t =>
      applyQualificationRule t parameter.ValueText
        (applyGradeRule t parameter.ValueText
          (applyRatingsRule t parameter.ValueText
            (applyThicknessRule t parameter.ValueText
              (applyHeightRule t parameter.ValueText
                (applyDimensionRule t parameter.ValueText
                  (applyOperatingTempRule t parameter.ValueText
                    (applySupplierDevicePackageRule t parameter.ValueText
                      (applyPackageCaseRule t parameter.ValueText part_data))))))))

/-- Lines 201-211 of entrypoint.py: the classification block.  The source
assigns the five fields in order inside one try block and catches KeyError
with pass, so the fields assigned before the first absent key keep their
values and the remaining ones stay None.  The quintuple is
(rohs_status, moisture_sensitivity_level, reach_status, eccn, htsus). -/
def extractClassifications (c : Option Classifications) :
    Option String × Option String × Option String × Option String × Option String :=
  match c with
  | none => (none, none, none, none, none)
  | some c =>
      match c.RohsStatus with
      | none => (none, none, none, none, none)
      | some r =>
          match c.MoistureSensitivityLevel with
          | none => (some r, none, none, none, none)
          | some m =>
              match c.ReachStatus with
              | none => (some r, some m, none, none, none)
              | some re =>
                  match c.ExportControlClassNumber with
                  | none => (some r, some m, some re, none, none)
                  | some ec =>
                      match c.HtsusCode with
                      | none => (some r, some m, some re, some ec, none)
                      | some ht => (some r, some m, some re, some ec, some ht)

/-- Lines 215-220 of entrypoint.py: the while loop over child_categories,
following only the first child at each level, collecting names in order. -/
def categoryChainFrom : List Category → List String
  | [] => []
  | Category.node n cs :: _ => n :: categoryChainFrom cs

/-- Lines 213-220 of entrypoint.py: append the root name, then walk the
children with categoryChainFrom. -/
def categoryChain (c : Category) : List String :=
  c.Name :: categoryChainFrom c.ChildCategories

/-- A graph-shaped semantics for the same category walk, able to represent
the cyclic in-memory child-reference structures the specification worries
about.  A node is a name plus a list of references (positions in the node
table); the walk follows only the first reference, one node per unit of
fuel.  A result of none means the loop is still running when the fuel runs
out; the source loop itself has no such bound, so a walk that returns none
for every fuel value is a walk on which the source loop never exits. -/
structure CatNodeRef where
  Name : String
  ChildCategories : List Nat

/-- One execution of the source while loop on the reference graph, with
fuel.  The dangling-reference branch cannot arise from a Python object
graph and simply stops. -/
def catWalkFuel (g : List CatNodeRef) : Nat → List Nat → List String → Option (List String)
  | 0, _, _ => none
  | _ + 1, [], acc => some acc
  | fuel + 1, c :: _, acc =>
      match g[c]? with
      | none => some acc
      | some node => catWalkFuel g fuel node.ChildCategories (acc ++ [node.Name])

/-- Lines 116-223 of entrypoint.py.  Returns the extracted ComponentData
together with the payload as it stands after the call: the merge step of
lines 161-165 mutates the ProductVariations list of the first exact match
in place, and the returned payload reflects that. -/
def extract_data_from_digikey_search_response (keyword_search_json : SearchResponse) :
    Except String (ComponentData × SearchResponse) := do
  let part_data : ComponentData := {}
  let exactMatches ← getKey keyword_search_json.ExactMatches
  match exactMatches with
  | [] => return (part_data, keyword_search_json)
  | product_data :: restMatches => do
      let descriptionObj ← getKey product_data.Description
      let productDescription ← getKey descriptionObj.ProductDescription
      let part_data := { part_data with part_description := some productDescription }
      let manufacturerObj ← getKey product_data.Manufacturer
      let manufacturerName ← getKey manufacturerObj.Name
      let part_data := { part_data with mfr_name := some manufacturerName }
      let mpn ← getKey product_data.ManufacturerProductNumber
      let part_data := { part_data with mfr_part_number := some mpn }
      let photoUrl ← getKey product_data.PhotoUrl
      let part_data := { part_data with photo_url := some photoUrl }
      let datasheetUrl ← getKey product_data.DatasheetUrl
      let part_data := { part_data with datasheet_url := some datasheetUrl }
      let productUrl ← getKey product_data.ProductUrl
      let part_data := { part_data with product_url := some productUrl }
      let qtyAvailable ← getKey product_data.QuantityAvailable
      let part_data := { part_data with qty_available := some qtyAvailable }
      let statusObj ← getKey product_data.ProductStatus
      let status ← getKey statusObj.Status
      let part_data := { part_data with lifecycle_status := some status }
      let eol ← getKey product_data.EndOfLife
      let part_data := { part_data with eol_status := some eol }
      let discontinued ← getKey product_data.Discontinued
      let part_data := { part_data with discontinued_status := some discontinued }
      let rawPricing ← getKey product_data.ProductVariations
      let mergedPricing := mergeCutTapeDigiReel rawPricing
      let part_data := { part_data with pricing := some mergedPricing }
      let part_data := { part_data with
        package_case := none, supplier_device_package := none, operating_temp := none,
        xy_size := none, height := none, thickness := none, ratings := none, grade := none }
      let parameters ← getKey product_data.Parameters
      let part_data := parameters.foldl scanParameter part_data
      let classData := extractClassifications product_data.Classifications
      let part_data := { part_data with
        rohs_status := classData.1, moisture_sensitivity_level := classData.2.1,
        reach_status := classData.2.2.1, eccn := classData.2.2.2.1,
        htsus := classData.2.2.2.2 }
      let category ← getKey product_data.Category
      let part_data := { part_data with categories := part_data.categories ++ categoryChain category }
      return (part_data,
        { keyword_search_json with
            ExactMatches :=
              some ({ product_data with ProductVariations := some mergedPricing } :: restMatches) })

/-- Python min over a nonempty list of naturals; the source only calls it
on a nonempty breakpoints list, the empty case is a junk value. -/
def listMin : List Nat → Nat
  | [] => 0
  | a :: l => l.foldl min a

/-- Python max over a nonempty list of naturals; the source only calls it
on a nonempty breakpoints list, the empty case is a junk value. -/
def listMax : List Nat → Nat
  | [] => 0
  | a :: l => l.foldl max a

/-- Lines 246-288 of entrypoint.py, the body of the PCB-quantity loop for
one quantity: build the pricing_for_pcb_qty dictionary.  When the total
part quantity is at most the smallest breakpoint the first row is used;
when it is at least the largest breakpoint the last row is used; otherwise
a forward scan overwrites the three price keys at every row whose break
quantity does not exceed the total part quantity. -/
def cogsForPcbQty (std_pricing : List StdPricingRow)
    (single_pcb_part_qty pcb_qty : Nat) : PricingForPcbQty :=
  let part_qty := single_pcb_part_qty * pcb_qty
  let breakpoints := std_pricing.map (·.BreakQuantity)
  let base : PricingForPcbQty := { pcb_qty := pcb_qty, total_part_qty := part_qty }
  if part_qty ≤ listMin breakpoints then
    match std_pricing.head? with
    | some bp => { base with break_qty := some bp.BreakQuantity,
                             price_per_unit := some bp.UnitPrice,
                             total_price := some (bp.UnitPrice * (part_qty : ℚ)) }
    | none => base
  else if listMax breakpoints ≤ part_qty then
    match std_pricing.getLast? with
    | some bp => { base with break_qty := some bp.BreakQuantity,
                             price_per_unit := some bp.UnitPrice,
                             total_price := some (bp.UnitPrice * (part_qty : ℚ)) }
    | none => base
  else
    std_pricing.foldl
      (fun row bp =>
        if bp.BreakQuantity ≤ part_qty then
          { row with break_qty := some bp.BreakQuantity,
                     price_per_unit := some bp.UnitPrice,
                     total_price := some (bp.UnitPrice * (part_qty : ℚ)) }
        else row)
      base

/-- Lines 227-292 of entrypoint.py.  A falsy pricing attribute (None, or an
empty variations list) yields the empty result; a variant with an empty
StandardPricing table is skipped. -/
def get_prices_for_target_qtys (part_data : ComponentData)
    (single_pcb_part_qty : Nat) (pcb_quantities : List Nat) : List PricingForPriceType :=
  match part_data.pricing with
  | none => []
  | some variations =>
      variations.filterMap fun pricing_type =>
        match pricing_type.StandardPricing with
        | [] => none
        | _ :: _ =>
            some { package_type := pricing_type.PackageType,
                   cogs := pcb_quantities.map
                     (cogsForPcbQty pricing_type.StandardPricing single_pcb_part_qty) }

/-- The tier the specification text selects, written from the words of the
spec: the first (smallest) tier when the total part quantity is at most the
smallest break quantity of the table, the last (largest) tier when it is at
least the largest break quantity, and otherwise the last tier of a forward
scan whose break quantity is at most the total part quantity. -/
def specSelectedTier (std_pricing : List StdPricingRow) (total_part_qty : Nat) :
    Option StdPricingRow :=
  match std_pricing with
  | [] => none
  | first :: _ =>
      let breaks := std_pricing.map (·.BreakQuantity)
      if total_part_qty ≤ listMin breaks then some first
      else if listMax breaks ≤ total_part_qty then std_pricing.getLast?
      else (std_pricing.filter fun r => decide (r.BreakQuantity ≤ total_part_qty)).getLast?

/-- The typed field assigned by the i-th if statement of the parameter scan
(lines 176-200), read back from a ComponentData record; indices follow the
textual order of the if statements.  Indices outside 0..8 read no field. -/
def ruleField (i : Nat) (part_data : ComponentData) : Option String :=
  match i with
  | 0 => part_data.package_case
  | 1 => part_data.supplier_device_package
  | 2 => part_data.operating_temp
  | 3 => part_data.xy_size
  | 4 => part_data.height
  | 5 => part_data.thickness
  | 6 => part_data.ratings
  | 7 => part_data.grade
  | 8 => part_data.qualification
  | _ => none

/-- The test the i-th if statement of the parameter scan applies to the
ParameterText value: rules 0, 1 and 2 are exact comparisons, rules 3 to 8
are substring tests. -/
def ruleMatches (i : Nat) (t : String) : Bool :=
  match i with
  | 0 => t == "Package / Case"
  | 1 => t == "Supplier Device Package"
  | 2 => t == "Operating Temperature"
  | 3 => strContainsSub t "Dimension"
  | 4 => strContainsSub t "Height"
  | 5 => strContainsSub t "Thickness (Max)"
  | 6 => strContainsSub t "Ratings"
  | 7 => strContainsSub t "Grade"
  | 8 => strContainsSub t "Qualification"
  | _ => false

/-- A parameter entry matches rule i when it carries the ParameterText key
and its text passes the rule test. -/
def paramMatchesRule (i : Nat) (parameter : Parameter) : Bool :=
  match parameter.ParameterText with
  | none => false
  | some t => ruleMatches i t

/-- Replace the Classifications object of the first exact match of a
payload, when one exists. -/
def withClassifications (p : SearchResponse) (c : Option Classifications) : SearchResponse :=
  match p.ExactMatches with
  | some (m :: rest) => ⟨some ({ m with Classifications := c } :: rest)⟩
  | _ => p

/-- Observation helper: the packaging-variant names stored inside the first
exact match of a payload, used to compare a payload before and after
extraction. -/
def variationNames (p : SearchResponse) : Option (List String) :=
  (p.ExactMatches.bind List.head?).map
    fun m => (m.ProductVariations.getD []).map (·.PackageType)

/-- Price-tier table of the worked example in the specification, section 8:
tiers (1, 1.00), (10, 0.80), (100, 0.50). -/
def sampleTiers : List StdPricingRow := [⟨1, 1⟩, ⟨10, (4 : ℚ) / 5⟩, ⟨100, (1 : ℚ) / 2⟩]

/-- A Tape and Reel packaging variant carrying the sample tiers. -/
def sampleVariation : ProductVariation := ⟨"Tape & Reel", sampleTiers⟩

/-- A Classifications object with all five sub-keys present. -/
def sampleClassifications : Classifications :=
  ⟨some "ROHS3 Compliant", some "1 (Unlimited)", some "REACH Unaffected",
   some "EAR99", some "8533.21.0020"⟩

/-- A fully populated exact-match product used to build concrete payloads. -/
def sampleProduct : Product where
  Description := some ⟨some "RES 330 OHM 5% 1/10W 0603"⟩
  Manufacturer := some ⟨some "YAGEO"⟩
  ManufacturerProductNumber := some "RC0603JR-07330RL"
  PhotoUrl := some "photo-url"
  DatasheetUrl := some "datasheet-url"
  ProductUrl := some "product-url"
  QuantityAvailable := some 5000
  ProductStatus := some ⟨some "Active"⟩
  EndOfLife := some false
  Discontinued := some false
  ProductVariations := some [sampleVariation]
  Parameters := some []
  Classifications := some sampleClassifications
  Category := some (.node "Resistors" [.node "Chip Resistor - Surface Mount" []])

/-- A payload whose first exact match misses the Description sub-object. -/
def cex4Payload : SearchResponse := ⟨some [{ sampleProduct with Description := none }]⟩

/-- A Classifications object with the MoistureSensitivityLevel sub-key
absent and every other sub-key present. -/
def cex7Classifications : Classifications :=
  ⟨some "ROHS3 Compliant", none, some "REACH Unaffected", some "EAR99", some "8533.21.0020"⟩

/-- A payload whose first exact match carries cex7Classifications. -/
def cex7Payload : SearchResponse :=
  ⟨some [{ sampleProduct with Classifications := some cex7Classifications }]⟩

/-- A variations list holding both a Cut Tape and a Digi-Reel variant. -/
def cex2Variations : List ProductVariation :=
  [⟨"Cut Tape", sampleTiers⟩, ⟨"Digi-Reel", [⟨1, 3⟩]⟩]

/-- A payload whose first exact match carries cex2Variations. -/
def cex2Payload : SearchResponse :=
  ⟨some [{ sampleProduct with ProductVariations := some cex2Variations }]⟩

/-- A second variations list with both kinds, Digi-Reel listed first. -/
def cex10Variations : List ProductVariation :=
  [⟨"Digi-Reel", [⟨1, 3⟩]⟩, ⟨"Cut Tape", sampleTiers⟩, ⟨"Bulk", [⟨1, 2⟩]⟩]

/-- A payload whose first exact match carries cex10Variations. -/
def cex10Payload : SearchResponse :=
  ⟨some [{ sampleProduct with ProductVariations := some cex10Variations }]⟩

/-- A component record holding only structural defaults: every optional
field null, the reference-designator string empty, both lists empty. -/
def sparseComponentData : ComponentData where
  associated_refdes := ""
  part_description := none
  mfr_name := none
  mfr_part_number := none
  photo_url := none
  datasheet_url := none
  product_url := none
  qty_available := none
  lifecycle_status := none
  eol_status := none
  discontinued_status := none
  pricing := none
  package_case := none
  supplier_device_package := none
  operating_temp := none
  xy_size := none
  height := none
  thickness := none
  ratings := none
  grade := none
  qualification := none
  rohs_status := none
  moisture_sensitivity_level := none
  reach_status := none
  eccn := none
  htsus := none
  categories := []
  cogs_breakdown := []

/-- A cyclic category reference structure: one node named A whose first
child reference points back to the node itself. -/
def cyclicCategoryGraph : List CatNodeRef := [⟨"A", [0]⟩]

/-- A payload holding exactly the fully populated sample product. -/
def samplePayload : SearchResponse := ⟨some [sampleProduct]⟩

/-- The component record the extraction builds for a matched product whose
required keys are all present: pd is the product description, mn the
manufacturer name, mpn the part number, photo, ds and pu the three URLs,
qa the available quantity, stv the lifecycle status, eol and disc the two
flags, pv the raw variations list, params the parameter list, c the
classification object and cat the category root.  The body repeats, stage
by stage, the assignments of lines 126-220 of entrypoint.py. -/
def buildComponentData (pd mn mpn photo ds pu : String) (qa : Nat) (stv : String)
    (eol disc : Bool) (pv : List ProductVariation) (params : List Parameter)
    (c : Option Classifications) (cat : Category) : ComponentData :=
  let part_data : ComponentData :=
    { part_description := some pd, mfr_name := some mn, mfr_part_number := some mpn,
      photo_url := some photo, datasheet_url := some ds, product_url := some pu,
      qty_available := some qa, lifecycle_status := some stv, eol_status := some eol,
      discontinued_status := some disc, pricing := some (mergeCutTapeDigiReel pv),
      package_case := none, supplier_device_package := none, operating_temp := none,
      xy_size := none, height := none, thickness := none, ratings := none, grade := none }
  let part_data := params.foldl scanParameter part_data
  let classData := extractClassifications c
  let part_data := { part_data with
    rohs_status := classData.1, moisture_sensitivity_level := classData.2.1,
    reach_status := classData.2.2.1, eccn := classData.2.2.2.1,
    htsus := classData.2.2.2.2 }
  { part_data with categories := part_data.categories ++ categoryChain cat }

/-- The payload as the extraction leaves it for a matched product: the
variations list of the first match replaced by its merged version, all
other content untouched. -/
def writebackPayload (p : SearchResponse) (m : Product) (rest : List Product)
    (pv : List ProductVariation) : SearchResponse :=
  { p with
      ExactMatches :=
        some ({ m with ProductVariations := some (mergeCutTapeDigiReel pv) } :: rest) }

/-! ## Theorems -/

/-- C3: for every payload whose exact-match list is present and empty, the
extraction returns the fully sparse record, raises no exception, and leaves
the payload unchanged. -/
theorem c3_empty_match_yields_sparse_record (p : SearchResponse)
    (h : p.ExactMatches = some []) :
    extract_data_from_digikey_search_response p = Except.ok (sparseComponentData, p) := by
  obtain ⟨em⟩ := p
  obtain rfl : em = some [] := h
  rfl

/-- Witness for C3 at a concrete payload. -/
theorem c3_empty_match_yields_sparse_record_witness :
    extract_data_from_digikey_search_response ⟨some []⟩ =
      Except.ok (sparseComponentData, ⟨some []⟩) :=
  c3_empty_match_yields_sparse_record ⟨some []⟩ rfl

/-- C9: a record with no pricing table yields the empty price list, and a
packaging variant with an empty tier table contributes no group to the
result; no error arises in either case. -/
theorem c9_empty_pricing_is_skipped (part_data : ComponentData)
    (single_pcb_part_qty : Nat) (pcb_quantities : List Nat) :
    (part_data.pricing = none →
      get_prices_for_target_qtys part_data single_pcb_part_qty pcb_quantities = [])
    ∧ (∀ (vpre vpost : List ProductVariation) (v : ProductVariation),
        v.StandardPricing = [] →
        part_data.pricing = some (vpre ++ v :: vpost) →
        get_prices_for_target_qtys part_data single_pcb_part_qty pcb_quantities =
          get_prices_for_target_qtys { part_data with pricing := some (vpre ++ vpost) }
            single_pcb_part_qty pcb_quantities) := by
  constructor
  · intro h
    simp [get_prices_for_target_qtys, h]
  · intro vpre vpost v hv hp
    simp [get_prices_for_target_qtys, hp, List.filterMap_append, List.filterMap_cons, hv]

/-- Witness for C9 at concrete inputs. -/
theorem c9_empty_pricing_is_skipped_witness :
    get_prices_for_target_qtys { pricing := none } 2 [1, 10] = [] ∧
    get_prices_for_target_qtys { pricing := some ([] ++ ⟨"Bulk", []⟩ :: [sampleVariation]) }
        2 [1, 10] =
      get_prices_for_target_qtys { pricing := some ([] ++ [sampleVariation]) } 2 [1, 10] :=
  ⟨(c9_empty_pricing_is_skipped { pricing := none } 2 [1, 10]).1 rfl,
   (c9_empty_pricing_is_skipped
      { pricing := some ([] ++ ⟨"Bulk", []⟩ :: [sampleVariation]) } 2 [1, 10]).2
      [] [sampleVariation] ⟨"Bulk", []⟩ rfl rfl⟩

/-- C8: the category walk appends the root name and then the name of each
successive first child until no child remains (first three conjuncts); but
on a cyclic child-reference structure the source loop never exits: with any
amount of fuel the walk is still running (last conjunct), so the claimed
bounded termination on cyclic input fails on the code as written. -/
theorem c8_category_walk_unbounded_on_cycle :
    (∀ c : Category, categoryChain c = c.Name :: categoryChainFrom c.ChildCategories)
    ∧ (∀ n cs rest, categoryChainFrom (Category.node n cs :: rest) = n :: categoryChainFrom cs)
    ∧ (categoryChainFrom [] = [])
    ∧ (∀ fuel acc, catWalkFuel cyclicCategoryGraph fuel [0] acc = none) := by
  refine ⟨fun c => rfl, fun n cs rest => by simp [categoryChainFrom],
    by simp [categoryChainFrom], ?_⟩
  intro fuel
  induction fuel with
  | zero => intro acc; rfl
  | succ n ih => intro acc; exact ih (acc ++ ["A"])

/-- Rule 0 sets only the package_case field, when its exact test passes. -/
lemma ruleField_applyPackageCaseRule (i : Nat) (t v : String) (d : ComponentData) :
    ruleField i (applyPackageCaseRule t v d) =
      if i = 0 ∧ t == "Package / Case" then some v else ruleField i d := by
  unfold applyPackageCaseRule
  rcases i with _ | _ | _ | _ | _ | _ | _ | _ | _ | i <;> split_ifs <;> simp_all [ruleField]

/-- Rule 1 sets only the supplier_device_package field. -/
lemma ruleField_applySupplierDevicePackageRule (i : Nat) (t v : String) (d : ComponentData) :
    ruleField i (applySupplierDevicePackageRule t v d) =
      if i = 1 ∧ t == "Supplier Device Package" then some v else ruleField i d := by
  unfold applySupplierDevicePackageRule
  rcases i with _ | _ | _ | _ | _ | _ | _ | _ | _ | i <;> split_ifs <;> simp_all [ruleField]

/-- Rule 2 sets only the operating_temp field. -/
lemma ruleField_applyOperatingTempRule (i : Nat) (t v : String) (d : ComponentData) :
    ruleField i (applyOperatingTempRule t v d) =
      if i = 2 ∧ t == "Operating Temperature" then some v else ruleField i d := by
  unfold applyOperatingTempRule
  rcases i with _ | _ | _ | _ | _ | _ | _ | _ | _ | i <;> split_ifs <;> simp_all [ruleField]

/-- Rule 3 sets only the xy_size field, on a substring test. -/
lemma ruleField_applyDimensionRule (i : Nat) (t v : String) (d : ComponentData) :
    ruleField i (applyDimensionRule t v d) =
      if i = 3 ∧ strContainsSub t "Dimension" then some v else ruleField i d := by
  unfold applyDimensionRule
  rcases i with _ | _ | _ | _ | _ | _ | _ | _ | _ | i <;> split_ifs <;> simp_all [ruleField]

/-- Rule 4 sets only the height field, on a substring test. -/
lemma ruleField_applyHeightRule (i : Nat) (t v : String) (d : ComponentData) :
    ruleField i (applyHeightRule t v d) =
      if i = 4 ∧ strContainsSub t "Height" then some v else ruleField i d := by
  unfold applyHeightRule
  rcases i with _ | _ | _ | _ | _ | _ | _ | _ | _ | i <;> split_ifs <;> simp_all [ruleField]

/-- Rule 5 sets only the thickness field, on a substring test. -/
lemma ruleField_applyThicknessRule (i : Nat) (t v : String) (d : ComponentData) :
    ruleField i (applyThicknessRule t v d) =
      if i = 5 ∧ strContainsSub t "Thickness (Max)" then some v else ruleField i d := by
  unfold applyThicknessRule
  rcases i with _ | _ | _ | _ | _ | _ | _ | _ | _ | i <;> split_ifs <;> simp_all [ruleField]

/-- Rule 6 sets only the ratings field, on a substring test. -/
lemma ruleField_applyRatingsRule (i : Nat) (t v : String) (d : ComponentData) :
    ruleField i (applyRatingsRule t v d) =
      if i = 6 ∧ strContainsSub t "Ratings" then some v else ruleField i d := by
  unfold applyRatingsRule
  rcases i with _ | _ | _ | _ | _ | _ | _ | _ | _ | i <;> split_ifs <;> simp_all [ruleField]

/-- Rule 7 sets only the grade field, on a substring test. -/
lemma ruleField_applyGradeRule (i : Nat) (t v : String) (d : ComponentData) :
    ruleField i (applyGradeRule t v d) =
      if i = 7 ∧ strContainsSub t "Grade" then some v else ruleField i d := by
  unfold applyGradeRule
  rcases i with _ | _ | _ | _ | _ | _ | _ | _ | _ | i <;> split_ifs <;> simp_all [ruleField]

/-- Rule 8 sets only the qualification field, on a substring test. -/
lemma ruleField_applyQualificationRule (i : Nat) (t v : String) (d : ComponentData) :
    ruleField i (applyQualificationRule t v d) =
      if i = 8 ∧ strContainsSub t "Qualification" then some v else ruleField i d := by
  unfold applyQualificationRule
  rcases i with _ | _ | _ | _ | _ | _ | _ | _ | _ | i <;> split_ifs <;> simp_all [ruleField]

/-- Step characterization of the parameter scan: the field of rule i after
processing one parameter is the ValueText of that parameter when the
parameter matches rule i, and the previous field value otherwise. -/
lemma ruleField_scanParameter (i : Nat) (d : ComponentData) (p : Parameter) :
    ruleField i (scanParameter d p) =
      if paramMatchesRule i p then some p.ValueText else ruleField i d := by
  obtain ⟨pt, v⟩ := p
  cases pt with
  | none => simp [scanParameter, paramMatchesRule]
  | some t =>
      simp only [scanParameter, paramMatchesRule, ruleField_applyQualificationRule,
        ruleField_applyGradeRule, ruleField_applyRatingsRule, ruleField_applyThicknessRule,
        ruleField_applyHeightRule, ruleField_applyDimensionRule,
        ruleField_applyOperatingTempRule, ruleField_applySupplierDevicePackageRule,
        ruleField_applyPackageCaseRule]
      rcases i with _ | _ | _ | _ | _ | _ | _ | _ | _ | i <;> simp [ruleMatches]

/-- Parameters that match no occurrence of rule i leave the field of rule i
unchanged across the fold. -/
lemma ruleField_foldl_nomatch (i : Nat) (l : List Parameter) (d : ComponentData)
    (h : ∀ q ∈ l, paramMatchesRule i q = false) :
    ruleField i (l.foldl scanParameter d) = ruleField i d := by
  induction l generalizing d with
  | nil => rfl
  | cons a l ih =>
      rw [List.foldl_cons, ih _ fun q hq => h q (List.mem_cons_of_mem a hq),
        ruleField_scanParameter, h a (List.mem_cons_self a l)]
      simp

/-- C5: in the parameter scan, when several parameter entries match the
same rule of the precedence table, the last matching entry in scan order
determines the final field value: a matching entry followed only by
non-matching entries fixes the field to its ValueText. -/
theorem c5_last_matching_parameter_wins (i : Nat) (l1 l2 : List Parameter)
    (p : Parameter) (d : ComponentData)
    (hp : paramMatchesRule i p = true)
    (h2 : ∀ q ∈ l2, paramMatchesRule i q = false) :
    ruleField i ((l1 ++ p :: l2).foldl scanParameter d) = some p.ValueText := by
  rw [List.foldl_append, List.foldl_cons, ruleField_foldl_nomatch i l2 _ h2,
    ruleField_scanParameter, hp]
  simp

/-- Witness for C5: two Grade parameters, the second wins, and a trailing
Height parameter does not disturb the grade field. -/
theorem c5_last_matching_parameter_wins_witness :
    paramMatchesRule 7 ⟨some "Grade", "Automotive"⟩ = true ∧
    (∀ q ∈ [Parameter.mk (some "Height") "1mm"], paramMatchesRule 7 q = false) ∧
    ruleField 7 ((([⟨some "Grade", "Commercial"⟩] : List Parameter) ++
        (⟨some "Grade", "Automotive"⟩ :: [⟨some "Height", "1mm"⟩] : List Parameter)).foldl
          scanParameter {}) =
      some "Automotive" :=
  ⟨by decide, by decide,
    c5_last_matching_parameter_wins 7 [⟨some "Grade", "Commercial"⟩]
      [⟨some "Height", "1mm"⟩] ⟨some "Grade", "Automotive"⟩ {} (by decide) (by decide)⟩

/-- C6 counterexample: the Thickness (Max) rule fires on a strictly longer
parameter name, so it is not an exact comparison, and one parameter entry
populates two typed fields at once (the Dimension and Height rules both
fire), so a parameter entry does not populate at most one field. -/
theorem c6_counterexample :
    (ruleField 5 (scanParameter {} ⟨some "Thickness (Max) Overall", "0.55mm"⟩) = some "0.55mm"
      ∧ ("Thickness (Max) Overall" == "Thickness (Max)") = false)
    ∧ (ruleField 3 (scanParameter {} ⟨some "Body Dimension Height", "5x5mm"⟩) = some "5x5mm"
      ∧ ruleField 4 (scanParameter {} ⟨some "Body Dimension Height", "5x5mm"⟩) = some "5x5mm") := by
  decide

/-- C6 amended: each parameter entry is tested by every rule independently
and every matching rule fires, so one entry may populate several typed
fields; the Package / Case, Supplier Device Package and Operating
Temperature rules are exact comparisons, while the Dimension, Height,
Thickness (Max), Ratings, Grade and Qualification rules are substring
tests. -/
theorem c6_rules_fire_independently (d : ComponentData) (p : Parameter) (t : String)
    (ht : p.ParameterText = some t) :
    (scanParameter d p).package_case =
      (if t == "Package / Case" then some p.ValueText else d.package_case)
    ∧ (scanParameter d p).supplier_device_package =
      (if t == "Supplier Device Package" then some p.ValueText else d.supplier_device_package)
    ∧ (scanParameter d p).operating_temp =
      (if t == "Operating Temperature" then some p.ValueText else d.operating_temp)
    ∧ (scanParameter d p).xy_size =
      (if strContainsSub t "Dimension" then some p.ValueText else d.xy_size)
    ∧ (scanParameter d p).height =
      (if strContainsSub t "Height" then some p.ValueText else d.height)
    ∧ (scanParameter d p).thickness =
      (if strContainsSub t "Thickness (Max)" then some p.ValueText else d.thickness)
    ∧ (scanParameter d p).ratings =
      (if strContainsSub t "Ratings" then some p.ValueText else d.ratings)
    ∧ (scanParameter d p).grade =
      (if strContainsSub t "Grade" then some p.ValueText else d.grade)
    ∧ (scanParameter d p).qualification =
      (if strContainsSub t "Qualification" then some p.ValueText else d.qualification) := by
  obtain ⟨pt, v⟩ := p
  obtain rfl : pt = some t := ht
  exact ⟨ruleField_scanParameter 0 d (Parameter.mk (some t) v),
    ruleField_scanParameter 1 d (Parameter.mk (some t) v),
    ruleField_scanParameter 2 d (Parameter.mk (some t) v),
    ruleField_scanParameter 3 d (Parameter.mk (some t) v),
    ruleField_scanParameter 4 d (Parameter.mk (some t) v),
    ruleField_scanParameter 5 d (Parameter.mk (some t) v),
    ruleField_scanParameter 6 d (Parameter.mk (some t) v),
    ruleField_scanParameter 7 d (Parameter.mk (some t) v),
    ruleField_scanParameter 8 d (Parameter.mk (some t) v)⟩

/-- Witness for the C6 amended theorem at a concrete parameter. -/
theorem c6_rules_fire_independently_witness :
    (scanParameter {} ⟨some "Grade", "X1"⟩).package_case =
      (if "Grade" == "Package / Case" then some "X1" else ({} : ComponentData).package_case)
    ∧ (scanParameter {} ⟨some "Grade", "X1"⟩).supplier_device_package =
      (if "Grade" == "Supplier Device Package" then some "X1"
        else ({} : ComponentData).supplier_device_package)
    ∧ (scanParameter {} ⟨some "Grade", "X1"⟩).operating_temp =
      (if "Grade" == "Operating Temperature" then some "X1"
        else ({} : ComponentData).operating_temp)
    ∧ (scanParameter {} ⟨some "Grade", "X1"⟩).xy_size =
      (if strContainsSub "Grade" "Dimension" then some "X1" else ({} : ComponentData).xy_size)
    ∧ (scanParameter {} ⟨some "Grade", "X1"⟩).height =
      (if strContainsSub "Grade" "Height" then some "X1" else ({} : ComponentData).height)
    ∧ (scanParameter {} ⟨some "Grade", "X1"⟩).thickness =
      (if strContainsSub "Grade" "Thickness (Max)" then some "X1"
        else ({} : ComponentData).thickness)
    ∧ (scanParameter {} ⟨some "Grade", "X1"⟩).ratings =
      (if strContainsSub "Grade" "Ratings" then some "X1" else ({} : ComponentData).ratings)
    ∧ (scanParameter {} ⟨some "Grade", "X1"⟩).grade =
      (if strContainsSub "Grade" "Grade" then some "X1" else ({} : ComponentData).grade)
    ∧ (scanParameter {} ⟨some "Grade", "X1"⟩).qualification =
      (if strContainsSub "Grade" "Qualification" then some "X1"
        else ({} : ComponentData).qualification) :=
  c6_rules_fire_independently {} ⟨some "Grade", "X1"⟩ "Grade" rfl

/-- Folding min over a list everywhere at least the seed returns the seed. -/
lemma foldl_min_eq_head (b : Nat) (bs : List Nat) (h : ∀ x ∈ bs, b ≤ x) :
    bs.foldl min b = b := by
  induction bs generalizing b with
  | nil => rfl
  | cons c cs ih =>
      rw [List.foldl_cons, Nat.min_eq_left (h c (List.mem_cons_self c cs))]
      exact ih b fun x hx => h x (List.mem_cons_of_mem c hx)

/-- On an ascending list the last element is the fold of max. -/
lemma getLast?_eq_foldl_max (b : Nat) (bs : List Nat)
    (h : List.Pairwise (· ≤ ·) (b :: bs)) :
    (b :: bs).getLast? = some (bs.foldl max b) := by
  induction bs generalizing b with
  | nil => rfl
  | cons c cs ih =>
      rw [List.getLast?_cons_cons, ih c (List.pairwise_cons.mp h).2, List.foldl_cons,
        Nat.max_eq_right ((List.pairwise_cons.mp h).1 c (List.mem_cons_self c cs))]

/-- In a tier list ascending by break quantity, every member has break
quantity at most that of the last element. -/
lemma break_le_of_getLast? {l : List StdPricingRow}
    (hs : l.Pairwise fun r s => r.BreakQuantity ≤ s.BreakQuantity)
    {t : StdPricingRow} (ht : l.getLast? = some t)
    {r : StdPricingRow} (hr : r ∈ l) : r.BreakQuantity ≤ t.BreakQuantity := by
  induction l with
  | nil => cases ht
  | cons a l ih =>
      cases l with
      | nil =>
          simp only [List.getLast?_singleton, Option.some.injEq] at ht
          simp only [List.mem_singleton] at hr
          subst ht
          subst hr
          exact le_refl _
      | cons b l' =>
          rw [List.getLast?_cons_cons] at ht
          have htm : t ∈ b :: l' := by
            have hg := List.getLast?_eq_getLast (b :: l') (List.cons_ne_nil b l')
            rw [ht] at hg
            exact (Option.some.inj hg) ▸ List.getLast_mem _
          rcases List.mem_cons.mp hr with rfl | hr'
          · exact (List.pairwise_cons.mp hs).1 t htm
          · exact ih (List.pairwise_cons.mp hs).2 ht hr'

/-- The overwriting forward scan of lines 275-286: folding the overwrite
step over the tier list updates the three price keys to those of the last
qualifying tier, and leaves the row untouched when no tier qualifies. -/
lemma cogs_overwrite_foldl (q : Nat) (l : List StdPricingRow) (row : PricingForPcbQty) :
    l.foldl
      (fun row bp =>
        if bp.BreakQuantity ≤ q then
          { row with break_qty := some bp.BreakQuantity,
                     price_per_unit := some bp.UnitPrice,
                     total_price := some (bp.UnitPrice * (q : ℚ)) }
        else row)
      row =
      match (l.filter fun r => decide (r.BreakQuantity ≤ q)).getLast? with
      | none => row
      | some t =>
          { row with break_qty := some t.BreakQuantity,
                     price_per_unit := some t.UnitPrice,
                     total_price := some (t.UnitPrice * (q : ℚ)) } := by
  induction l generalizing row with
  | nil => rfl
  | cons a l ih =>
      rw [List.foldl_cons, List.filter_cons]
      by_cases ha : a.BreakQuantity ≤ q
      · rw [if_pos ha, if_pos (decide_eq_true ha), ih]
        cases hfl : l.filter fun r => decide (r.BreakQuantity ≤ q) with
        | nil => simp
        | cons c cs =>
            rw [List.getLast?_cons_cons]
            cases hgl : (c :: cs).getLast? with
            | none =>
                have hg := List.getLast?_eq_getLast (c :: cs) (List.cons_ne_nil c cs)
                rw [hgl] at hg
                cases hg
            | some t => rfl
      · rw [if_neg ha, if_neg fun h => ha (of_decide_eq_true h)]
        exact ih row

/-- The per-quantity core of C1: for a nonempty tier table ascending by
break quantity, the computed COGS row carries exactly the tier the
specification describes, that tier belongs to the table and is maximal
among qualifying tiers, and the total price is the unit price of the
selected tier times the total part quantity. -/
lemma cogsForPcbQty_selects_spec_tier (std : List StdPricingRow) (hne : std ≠ [])
    (hsort : std.Pairwise fun r s => r.BreakQuantity ≤ s.BreakQuantity)
    (single_pcb_part_qty pcb_qty : Nat) :
    ∃ t, specSelectedTier std (single_pcb_part_qty * pcb_qty) = some t
      ∧ t ∈ std
      ∧ cogsForPcbQty std single_pcb_part_qty pcb_qty =
          { pcb_qty := pcb_qty, total_part_qty := single_pcb_part_qty * pcb_qty,
            break_qty := some t.BreakQuantity, price_per_unit := some t.UnitPrice,
            total_price := some (t.UnitPrice * ((single_pcb_part_qty * pcb_qty : Nat) : ℚ)) }
      ∧ ∀ r ∈ std, r.BreakQuantity ≤ single_pcb_part_qty * pcb_qty →
          r.BreakQuantity ≤ t.BreakQuantity := by
  obtain ⟨first, rest, rfl⟩ : ∃ a l, std = a :: l := by
    cases std with
    | nil => exact absurd rfl hne
    | cons a l => exact ⟨a, l, rfl⟩
  have hpairb : List.Pairwise (· ≤ ·) ((first :: rest).map (·.BreakQuantity)) :=
    List.pairwise_map.mpr hsort
  have hmin : listMin ((first :: rest).map (·.BreakQuantity)) = first.BreakQuantity := by
    rw [List.map_cons]
    show (rest.map (·.BreakQuantity)).foldl min first.BreakQuantity = first.BreakQuantity
    refine foldl_min_eq_head _ _ fun x hx => ?_
    obtain ⟨r, hr, rfl⟩ := List.mem_map.mp hx
    exact (List.pairwise_cons.mp hsort).1 r hr
  obtain ⟨lastRow, hlast⟩ : ∃ t, (first :: rest).getLast? = some t :=
    ⟨_, List.getLast?_eq_getLast _ (List.cons_ne_nil first rest)⟩
  have hlastmem : lastRow ∈ first :: rest := by
    have hg := List.getLast?_eq_getLast (first :: rest) (List.cons_ne_nil first rest)
    rw [hlast] at hg
    exact (Option.some.inj hg) ▸ List.getLast_mem _
  have hmax : listMax ((first :: rest).map (·.BreakQuantity)) = lastRow.BreakQuantity := by
    have hg : ((first :: rest).map (·.BreakQuantity)).getLast? =
        some (listMax ((first :: rest).map (·.BreakQuantity))) := by
      rw [List.map_cons]
      exact getLast?_eq_foldl_max _ _ (List.map_cons (·.BreakQuantity) first rest ▸ hpairb)
    rw [List.getLast?_map, hlast] at hg
    exact (Option.some.inj hg).symm
  by_cases h1 : single_pcb_part_qty * pcb_qty ≤ listMin ((first :: rest).map (·.BreakQuantity))
  · refine ⟨first, ?_, List.mem_cons_self first rest, ?_, ?_⟩
    · simp only [specSelectedTier]
      rw [if_pos h1]
    · simp only [cogsForPcbQty]
      rw [if_pos h1]
      rfl
    · intro r hr hrq
      exact le_trans hrq (le_trans h1 (le_of_eq hmin))
  · by_cases h2 :
        listMax ((first :: rest).map (·.BreakQuantity)) ≤ single_pcb_part_qty * pcb_qty
    · refine ⟨lastRow, ?_, hlastmem, ?_, ?_⟩
      · simp only [specSelectedTier]
        rw [if_neg h1, if_pos h2]
        exact hlast
      · simp only [cogsForPcbQty]
        rw [if_neg h1, if_pos h2, hlast]
      · intro r hr hrq
        exact break_le_of_getLast? hsort hlast hr
    · have hfirstq : first.BreakQuantity ≤ single_pcb_part_qty * pcb_qty := by
        have hlt := Nat.lt_of_not_le fun hc => h1 (hmin ▸ hc)
        exact Nat.le_of_lt hlt
      have hmemf : first ∈ (first :: rest).filter
          fun r => decide (r.BreakQuantity ≤ single_pcb_part_qty * pcb_qty) :=
        List.mem_filter.mpr ⟨List.mem_cons_self first rest, by simpa using hfirstq⟩
      have hnef : ((first :: rest).filter
          fun r => decide (r.BreakQuantity ≤ single_pcb_part_qty * pcb_qty)) ≠ [] :=
        List.ne_nil_of_mem hmemf
      obtain ⟨t, ht⟩ : ∃ t, ((first :: rest).filter
          fun r => decide (r.BreakQuantity ≤ single_pcb_part_qty * pcb_qty)).getLast? = some t :=
        ⟨_, List.getLast?_eq_getLast _ hnef⟩
      have htf : t ∈ (first :: rest).filter
          fun r => decide (r.BreakQuantity ≤ single_pcb_part_qty * pcb_qty) := by
        have hg := List.getLast?_eq_getLast _ hnef
        rw [ht] at hg
        exact (Option.some.inj hg) ▸ List.getLast_mem _
      refine ⟨t, ?_, (List.mem_filter.mp htf).1, ?_, ?_⟩
      · simp only [specSelectedTier]
        rw [if_neg h1, if_neg h2]
        exact ht
      · simp only [cogsForPcbQty]
        rw [if_neg h1, if_neg h2, cogs_overwrite_foldl, ht]
      · intro r hr hrq
        have hrf : r ∈ (first :: rest).filter
            fun s => decide (s.BreakQuantity ≤ single_pcb_part_qty * pcb_qty) :=
          List.mem_filter.mpr ⟨hr, by simpa using hrq⟩
        exact break_le_of_getLast? (hsort.filter _) ht hrf

/-- C1: for every packaging variant with a nonempty tier table ascending by
break quantity and for every target PCB quantity, get_prices_for_target_qtys
emits a group for the variant holding one COGS row per PCB quantity, and
each row selects exactly the tier the specification describes (first tier
below the table, last tier above it, greatest qualifying tier in between)
with total price equal to that tier unit price times the total part
quantity. -/
theorem c1_tier_selection (variations : List ProductVariation) (v : ProductVariation)
    (hv : v ∈ variations) (hne : v.StandardPricing ≠ [])
    (hsort : v.StandardPricing.Pairwise fun r s => r.BreakQuantity ≤ s.BreakQuantity)
    (part_data : ComponentData) (hpd : part_data.pricing = some variations)
    (single_pcb_part_qty : Nat) (pcb_quantities : List Nat) :
    (∃ g ∈ get_prices_for_target_qtys part_data single_pcb_part_qty pcb_quantities,
        g = { package_type := v.PackageType,
              cogs := pcb_quantities.map
                (cogsForPcbQty v.StandardPricing single_pcb_part_qty) })
    ∧ ∀ pcb_qty : Nat,
        ∃ t, specSelectedTier v.StandardPricing (single_pcb_part_qty * pcb_qty) = some t
          ∧ t ∈ v.StandardPricing
          ∧ cogsForPcbQty v.StandardPricing single_pcb_part_qty pcb_qty =
              { pcb_qty := pcb_qty, total_part_qty := single_pcb_part_qty * pcb_qty,
                break_qty := some t.BreakQuantity, price_per_unit := some t.UnitPrice,
                total_price :=
                  some (t.UnitPrice * ((single_pcb_part_qty * pcb_qty : Nat) : ℚ)) }
          ∧ ∀ r ∈ v.StandardPricing, r.BreakQuantity ≤ single_pcb_part_qty * pcb_qty →
              r.BreakQuantity ≤ t.BreakQuantity := by
  constructor
  · refine ⟨_, ?_, rfl⟩
    simp only [get_prices_for_target_qtys, hpd]
    refine List.mem_filterMap.mpr ⟨v, hv, ?_⟩
    obtain ⟨b, bs, hsp⟩ : ∃ b bs, v.StandardPricing = b :: bs := by
      cases h : v.StandardPricing with
      | nil => exact absurd h hne
      | cons b bs => exact ⟨b, bs, rfl⟩
    rw [hsp]
  · intro pcb_qty
    exact cogsForPcbQty_selects_spec_tier v.StandardPricing hne hsort single_pcb_part_qty pcb_qty

/-- Witness for C1 on the worked example of the specification: tiers
(1, 1.00), (10, 0.80), (100, 0.50), two parts per board, and the PCB
quantity 10 for the pointwise part. -/
theorem c1_tier_selection_witness :
    (∃ g ∈ get_prices_for_target_qtys { pricing := some [sampleVariation] } 2 [1, 10, 100],
        g = { package_type := sampleVariation.PackageType,
              cogs := [1, 10, 100].map (cogsForPcbQty sampleVariation.StandardPricing 2) })
    ∧ (∃ t, specSelectedTier sampleVariation.StandardPricing (2 * 10) = some t
        ∧ t ∈ sampleVariation.StandardPricing
        ∧ cogsForPcbQty sampleVariation.StandardPricing 2 10 =
            { pcb_qty := 10, total_part_qty := 2 * 10,
              break_qty := some t.BreakQuantity, price_per_unit := some t.UnitPrice,
              total_price := some (t.UnitPrice * ((2 * 10 : Nat) : ℚ)) }
        ∧ ∀ r ∈ sampleVariation.StandardPricing, r.BreakQuantity ≤ 2 * 10 →
            r.BreakQuantity ≤ t.BreakQuantity) :=
  have h := c1_tier_selection [sampleVariation] sampleVariation
    (List.mem_singleton.mpr rfl) (by decide) (by decide)
    { pricing := some [sampleVariation] } rfl 2 [1, 10, 100]
  ⟨h.1, h.2 10⟩

/-- For a matched payload whose required keys are all present, the
extraction succeeds and returns exactly the record built by
buildComponentData together with the written-back payload. -/
lemma extract_matched_ok (p : SearchResponse) (m : Product) (rest : List Product)
    (hm : p.ExactMatches = some (m :: rest))
    (desc : DescriptionObj) (pd : String) (mfr : ManufacturerObj) (mn : String)
    (mpn photo ds pu : String) (qa : Nat) (st : ProductStatusObj) (stv : String)
    (eol disc : Bool) (pv : List ProductVariation) (params : List Parameter) (cat : Category)
    (h1 : m.Description = some desc) (h2 : desc.ProductDescription = some pd)
    (h3 : m.Manufacturer = some mfr) (h4 : mfr.Name = some mn)
    (h5 : m.ManufacturerProductNumber = some mpn)
    (h6 : m.PhotoUrl = some photo) (h7 : m.DatasheetUrl = some ds)
    (h8 : m.ProductUrl = some pu) (h9 : m.QuantityAvailable = some qa)
    (h10 : m.ProductStatus = some st) (h11 : st.Status = some stv)
    (h12 : m.EndOfLife = some eol) (h13 : m.Discontinued = some disc)
    (h14 : m.ProductVariations = some pv) (h15 : m.Parameters = some params)
    (h16 : m.Category = some cat) :
    extract_data_from_digikey_search_response p =
      Except.ok
        (buildComponentData pd mn mpn photo ds pu qa stv eol disc pv params
          m.Classifications cat,
         writebackPayload p m rest pv) := by
  obtain ⟨em⟩ := p
  obtain rfl : em = some (m :: rest) := hm
  obtain ⟨f1, f2, f3, f4, f5, f6, f7, f8, f9, f10, f11, f12, f13, f14⟩ := m
  obtain ⟨g1⟩ := desc
  obtain ⟨g2⟩ := mfr
  obtain ⟨g3⟩ := st
  obtain rfl : f1 = some ⟨g1⟩ := h1
  obtain rfl : g1 = some pd := h2
  obtain rfl : f2 = some ⟨g2⟩ := h3
  obtain rfl : g2 = some mn := h4
  obtain rfl : f3 = some mpn := h5
  obtain rfl : f4 = some photo := h6
  obtain rfl : f5 = some ds := h7
  obtain rfl : f6 = some pu := h8
  obtain rfl : f7 = some qa := h9
  obtain rfl : f8 = some ⟨g3⟩ := h10
  obtain rfl : g3 = some stv := h11
  obtain rfl : f9 = some eol := h12
  obtain rfl : f10 = some disc := h13
  obtain rfl : f11 = some pv := h14
  obtain rfl : f12 = some params := h15
  obtain rfl : f14 = some cat := h16
  rfl

/-- C4 counterexample: a concrete matched payload missing only the
Description sub-object makes the extraction raise KeyError instead of
returning a record with the description left null. -/
theorem c4_counterexample :
    extract_data_from_digikey_search_response cex4Payload = Except.error "KeyError" := rfl

/-- C4 amended: a missing expected key outside the classification block is
not tolerated: extraction raises KeyError when the exact-match container is
absent, when the Description sub-object of the first match is absent, when
its ProductDescription key is absent, and when the Manufacturer sub-object
is absent; no partial record is returned in those cases. -/
theorem c4_missing_key_raises :
    (∀ p : SearchResponse, p.ExactMatches = none →
      extract_data_from_digikey_search_response p = Except.error "KeyError")
    ∧ (∀ (p : SearchResponse) (m : Product) (rest : List Product),
        p.ExactMatches = some (m :: rest) → m.Description = none →
        extract_data_from_digikey_search_response p = Except.error "KeyError")
    ∧ (∀ (p : SearchResponse) (m : Product) (rest : List Product) (desc : DescriptionObj),
        p.ExactMatches = some (m :: rest) → m.Description = some desc →
        desc.ProductDescription = none →
        extract_data_from_digikey_search_response p = Except.error "KeyError")
    ∧ (∀ (p : SearchResponse) (m : Product) (rest : List Product),
        p.ExactMatches = some (m :: rest) → m.Manufacturer = none →
        extract_data_from_digikey_search_response p = Except.error "KeyError") := by
  refine ⟨?_, ?_, ?_, ?_⟩
  · intro p hp
    obtain ⟨em⟩ := p
    obtain rfl : em = none := hp
    rfl
  · intro p m rest hm hd
    obtain ⟨em⟩ := p
    obtain rfl : em = some (m :: rest) := hm
    obtain ⟨f1, f2, f3, f4, f5, f6, f7, f8, f9, f10, f11, f12, f13, f14⟩ := m
    obtain rfl : f1 = none := hd
    rfl
  · intro p m rest desc hm hd hpd
    obtain ⟨em⟩ := p
    obtain rfl : em = some (m :: rest) := hm
    obtain ⟨f1, f2, f3, f4, f5, f6, f7, f8, f9, f10, f11, f12, f13, f14⟩ := m
    obtain ⟨g1⟩ := desc
    obtain rfl : f1 = some ⟨g1⟩ := hd
    obtain rfl : g1 = none := hpd
    rfl
  · intro p m rest hm hmf
    obtain ⟨em⟩ := p
    obtain rfl : em = some (m :: rest) := hm
    obtain ⟨f1, f2, f3, f4, f5, f6, f7, f8, f9, f10, f11, f12, f13, f14⟩ := m
    obtain rfl : f2 = none := hmf
    cases f1 with
    | none => rfl
    | some desc =>
        obtain ⟨g1⟩ := desc
        cases g1 with
        | none => rfl
        | some pd => rfl

/-- Witness for C4 at a concrete payload with an absent exact-match
container. -/
theorem c4_missing_key_raises_witness :
    extract_data_from_digikey_search_response ⟨none⟩ = Except.error "KeyError" :=
  c4_missing_key_raises.1 ⟨none⟩ rfl

/-- When either packaging kind is absent the merge leaves the variations
list unchanged. -/
lemma mergeCutTapeDigiReel_eq_self (pv : List ProductVariation)
    (h : (cutTapeIdxs (pv.map (·.PackageType))).head? = none ∨
      (digiReelIdxs (pv.map (·.PackageType))).head? = none) :
    mergeCutTapeDigiReel pv = pv := by
  rcases h with h | h
  · unfold mergeCutTapeDigiReel
    simp only [h]
  · unfold mergeCutTapeDigiReel
    simp only [h]
    cases (cutTapeIdxs (pv.map (·.PackageType))).head? <;> rfl

/-- C10 counterexample: extraction changes the packaging-variant names
stored inside the payload whenever the merge triggers, so the input payload
object is not left unchanged. -/
theorem c10_counterexample :
    (extract_data_from_digikey_search_response cex10Payload).map (fun x => variationNames x.2) =
      Except.ok (some ["Cut Tape (CT) & Digi-Reel®", "Bulk"])
    ∧ variationNames cex10Payload = some ["Digi-Reel", "Cut Tape", "Bulk"] :=
  ⟨rfl, rfl⟩

/-- C10 amended: on a matched payload with all required keys present the
extraction returns the written-back payload, whose only change against the
input is the merged variations list of the first match; in particular when
the input has no Cut Tape variant or no Digi-Reel variant, the payload is
returned unchanged. -/
theorem c10_extract_mutates_payload_only_on_merge (p : SearchResponse) (m : Product)
    (rest : List Product) (hm : p.ExactMatches = some (m :: rest))
    (desc : DescriptionObj) (pd : String) (mfr : ManufacturerObj) (mn : String)
    (mpn photo ds pu : String) (qa : Nat) (st : ProductStatusObj) (stv : String)
    (eol disc : Bool) (pv : List ProductVariation) (params : List Parameter) (cat : Category)
    (h1 : m.Description = some desc) (h2 : desc.ProductDescription = some pd)
    (h3 : m.Manufacturer = some mfr) (h4 : mfr.Name = some mn)
    (h5 : m.ManufacturerProductNumber = some mpn)
    (h6 : m.PhotoUrl = some photo) (h7 : m.DatasheetUrl = some ds)
    (h8 : m.ProductUrl = some pu) (h9 : m.QuantityAvailable = some qa)
    (h10 : m.ProductStatus = some st) (h11 : st.Status = some stv)
    (h12 : m.EndOfLife = some eol) (h13 : m.Discontinued = some disc)
    (h14 : m.ProductVariations = some pv) (h15 : m.Parameters = some params)
    (h16 : m.Category = some cat) :
    extract_data_from_digikey_search_response p =
      Except.ok
        (buildComponentData pd mn mpn photo ds pu qa stv eol disc pv params
          m.Classifications cat,
         writebackPayload p m rest pv)
    ∧ (((cutTapeIdxs (pv.map (·.PackageType))).head? = none ∨
        (digiReelIdxs (pv.map (·.PackageType))).head? = none) →
        writebackPayload p m rest pv = p) := by
  refine ⟨extract_matched_ok p m rest hm desc pd mfr mn mpn photo ds pu qa st stv eol disc
    pv params cat h1 h2 h3 h4 h5 h6 h7 h8 h9 h10 h11 h12 h13 h14 h15 h16, ?_⟩
  intro h
  unfold writebackPayload
  rw [mergeCutTapeDigiReel_eq_self pv h, ← h14]
  have hmeta : ({ m with ProductVariations := m.ProductVariations } : Product) = m := rfl
  rw [hmeta, ← hm]

/-- Witness for C10 at the fully populated sample payload, whose single
packaging variant is neither Cut Tape nor Digi-Reel. -/
theorem c10_extract_mutates_payload_only_on_merge_witness :
    extract_data_from_digikey_search_response samplePayload =
      Except.ok
        (buildComponentData "RES 330 OHM 5% 1/10W 0603" "YAGEO" "RC0603JR-07330RL"
          "photo-url" "datasheet-url" "product-url" 5000 "Active" false false
          [sampleVariation] [] sampleProduct.Classifications
          (.node "Resistors" [.node "Chip Resistor - Surface Mount" []]),
         writebackPayload samplePayload sampleProduct [] [sampleVariation])
    ∧ writebackPayload samplePayload sampleProduct [] [sampleVariation] = samplePayload :=
  have h := c10_extract_mutates_payload_only_on_merge samplePayload sampleProduct [] rfl
    ⟨some "RES 330 OHM 5% 1/10W 0603"⟩ "RES 330 OHM 5% 1/10W 0603" ⟨some "YAGEO"⟩ "YAGEO"
    "RC0603JR-07330RL" "photo-url" "datasheet-url" "product-url" 5000 ⟨some "Active"⟩
    "Active" false false [sampleVariation] []
    (.node "Resistors" [.node "Chip Resistor - Surface Mount" []])
    rfl rfl rfl rfl rfl rfl rfl rfl rfl rfl rfl rfl rfl rfl rfl rfl
  ⟨h.1, h.2 (Or.inl (by decide))⟩

/-- C7 counterexample: on a matched payload whose Classifications object
has RohsStatus present but MoistureSensitivityLevel absent, extraction
keeps the already-assigned RoHS value and leaves only the remaining four
fields null, so the five fields are not all left null; the REACH, ECCN and
HTS values present in the payload are discarded. -/
theorem c7_counterexample :
    (extract_data_from_digikey_search_response cex7Payload).map
        (fun x => (x.1.rohs_status, x.1.moisture_sensitivity_level, x.1.reach_status,
          x.1.eccn, x.1.htsus)) =
      Except.ok (some "ROHS3 Compliant", none, none, none, none)
    ∧ cex7Classifications.ReachStatus = some "REACH Unaffected" := ⟨rfl, rfl⟩

/-- C7 amended: the classification block is a prefix extraction: an absent
object leaves all five fields null; with an object present, each field
keeps its value exactly when it and all fields before it (in the order
RoHS, moisture sensitivity, REACH, ECCN, HTS) are present, and the first
absent sub-key nulls itself and everything after it; extraction continues
for every classification content and the fields gathered before the block
keep their values. -/
theorem c7_classification_prefix_semantics (p : SearchResponse) (m : Product)
    (rest : List Product) (hm : p.ExactMatches = some (m :: rest))
    (desc : DescriptionObj) (pd : String) (mfr : ManufacturerObj) (mn : String)
    (mpn photo ds pu : String) (qa : Nat) (st : ProductStatusObj) (stv : String)
    (eol disc : Bool) (pv : List ProductVariation) (params : List Parameter) (cat : Category)
    (h1 : m.Description = some desc) (h2 : desc.ProductDescription = some pd)
    (h3 : m.Manufacturer = some mfr) (h4 : mfr.Name = some mn)
    (h5 : m.ManufacturerProductNumber = some mpn)
    (h6 : m.PhotoUrl = some photo) (h7 : m.DatasheetUrl = some ds)
    (h8 : m.ProductUrl = some pu) (h9 : m.QuantityAvailable = some qa)
    (h10 : m.ProductStatus = some st) (h11 : st.Status = some stv)
    (h12 : m.EndOfLife = some eol) (h13 : m.Discontinued = some disc)
    (h14 : m.ProductVariations = some pv) (h15 : m.Parameters = some params)
    (h16 : m.Category = some cat) :
    (extractClassifications none = (none, none, none, none, none))
    ∧ (∀ ct : Classifications, extractClassifications (some ct) =
        (ct.RohsStatus,
         if ct.RohsStatus.isSome then ct.MoistureSensitivityLevel else none,
         if ct.RohsStatus.isSome && ct.MoistureSensitivityLevel.isSome
           then ct.ReachStatus else none,
         if ct.RohsStatus.isSome && ct.MoistureSensitivityLevel.isSome
             && ct.ReachStatus.isSome
           then ct.ExportControlClassNumber else none,
         if ct.RohsStatus.isSome && ct.MoistureSensitivityLevel.isSome
             && ct.ReachStatus.isSome && ct.ExportControlClassNumber.isSome
           then ct.HtsusCode else none))
    ∧ (∀ c : Option Classifications,
        extract_data_from_digikey_search_response (withClassifications p c) =
          Except.ok
            (buildComponentData pd mn mpn photo ds pu qa stv eol disc pv params c cat,
             writebackPayload (withClassifications p c)
               { m with Classifications := c } rest pv))
    ∧ (∀ c cpre : Option Classifications,
        buildComponentData pd mn mpn photo ds pu qa stv eol disc pv params c cat =
          { buildComponentData pd mn mpn photo ds pu qa stv eol disc pv params cpre cat with
              rohs_status := (extractClassifications c).1,
              moisture_sensitivity_level := (extractClassifications c).2.1,
              reach_status := (extractClassifications c).2.2.1,
              eccn := (extractClassifications c).2.2.2.1,
              htsus := (extractClassifications c).2.2.2.2 }) := by
  refine ⟨rfl, ?_, ?_, ?_⟩
  · intro ct
    obtain ⟨o1, o2, o3, o4, o5⟩ := ct
    cases o1 <;> cases o2 <;> cases o3 <;> cases o4 <;> cases o5 <;> rfl
  · intro c
    obtain ⟨em⟩ := p
    obtain rfl : em = some (m :: rest) := hm
    obtain ⟨f1, f2, f3, f4, f5, f6, f7, f8, f9, f10, f11, f12, f13, f14⟩ := m
    obtain ⟨g1⟩ := desc
    obtain ⟨g2⟩ := mfr
    obtain ⟨g3⟩ := st
    obtain rfl : f1 = some ⟨g1⟩ := h1
    obtain rfl : g1 = some pd := h2
    obtain rfl : f2 = some ⟨g2⟩ := h3
    obtain rfl : g2 = some mn := h4
    obtain rfl : f3 = some mpn := h5
    obtain rfl : f4 = some photo := h6
    obtain rfl : f5 = some ds := h7
    obtain rfl : f6 = some pu := h8
    obtain rfl : f7 = some qa := h9
    obtain rfl : f8 = some ⟨g3⟩ := h10
    obtain rfl : g3 = some stv := h11
    obtain rfl : f9 = some eol := h12
    obtain rfl : f10 = some disc := h13
    obtain rfl : f11 = some pv := h14
    obtain rfl : f12 = some params := h15
    obtain rfl : f14 = some cat := h16
    rfl
  · intro c cpre
    rfl

/-- Witness for C7 at the sample payload and the partially populated
classification object of the counterexample. -/
theorem c7_classification_prefix_semantics_witness :
    (extractClassifications none = (none, none, none, none, none))
    ∧ (extractClassifications (some cex7Classifications) =
        (cex7Classifications.RohsStatus,
         if cex7Classifications.RohsStatus.isSome
           then cex7Classifications.MoistureSensitivityLevel else none,
         if cex7Classifications.RohsStatus.isSome
             && cex7Classifications.MoistureSensitivityLevel.isSome
           then cex7Classifications.ReachStatus else none,
         if cex7Classifications.RohsStatus.isSome
             && cex7Classifications.MoistureSensitivityLevel.isSome
             && cex7Classifications.ReachStatus.isSome
           then cex7Classifications.ExportControlClassNumber else none,
         if cex7Classifications.RohsStatus.isSome
             && cex7Classifications.MoistureSensitivityLevel.isSome
             && cex7Classifications.ReachStatus.isSome
             && cex7Classifications.ExportControlClassNumber.isSome
           then cex7Classifications.HtsusCode else none))
    ∧ (extract_data_from_digikey_search_response
          (withClassifications samplePayload (some cex7Classifications)) =
        Except.ok
          (buildComponentData "RES 330 OHM 5% 1/10W 0603" "YAGEO" "RC0603JR-07330RL"
            "photo-url" "datasheet-url" "product-url" 5000 "Active" false false
            [sampleVariation] [] (some cex7Classifications)
            (.node "Resistors" [.node "Chip Resistor - Surface Mount" []]),
           writebackPayload (withClassifications samplePayload (some cex7Classifications))
             { sampleProduct with Classifications := some cex7Classifications } []
             [sampleVariation]))
    ∧ (buildComponentData "RES 330 OHM 5% 1/10W 0603" "YAGEO" "RC0603JR-07330RL"
          "photo-url" "datasheet-url" "product-url" 5000 "Active" false false
          [sampleVariation] [] (some cex7Classifications)
          (.node "Resistors" [.node "Chip Resistor - Surface Mount" []]) =
        { buildComponentData "RES 330 OHM 5% 1/10W 0603" "YAGEO" "RC0603JR-07330RL"
            "photo-url" "datasheet-url" "product-url" 5000 "Active" false false
            [sampleVariation] [] none
            (.node "Resistors" [.node "Chip Resistor - Surface Mount" []]) with
            rohs_status := (extractClassifications (some cex7Classifications)).1,
            moisture_sensitivity_level :=
              (extractClassifications (some cex7Classifications)).2.1,
            reach_status := (extractClassifications (some cex7Classifications)).2.2.1,
            eccn := (extractClassifications (some cex7Classifications)).2.2.2.1,
            htsus := (extractClassifications (some cex7Classifications)).2.2.2.2 }) :=
  have h := c7_classification_prefix_semantics samplePayload sampleProduct [] rfl
    ⟨some "RES 330 OHM 5% 1/10W 0603"⟩ "RES 330 OHM 5% 1/10W 0603" ⟨some "YAGEO"⟩ "YAGEO"
    "RC0603JR-07330RL" "photo-url" "datasheet-url" "product-url" 5000 ⟨some "Active"⟩
    "Active" false false [sampleVariation] []
    (.node "Resistors" [.node "Chip Resistor - Surface Mount" []])
    rfl rfl rfl rfl rfl rfl rfl rfl rfl rfl rfl rfl rfl rfl rfl rfl
  ⟨h.1, h.2.1 cex7Classifications, h.2.2.1 (some cex7Classifications),
    h.2.2.2 (some cex7Classifications) none⟩

/-- Rule 0 never writes the pricing field. -/
lemma applyPackageCaseRule_pricing (t v : String) (d : ComponentData) :
    (applyPackageCaseRule t v d).pricing = d.pricing := by
  unfold applyPackageCaseRule; split <;> rfl

/-- Rule 1 never writes the pricing field. -/
lemma applySupplierDevicePackageRule_pricing (t v : String) (d : ComponentData) :
    (applySupplierDevicePackageRule t v d).pricing = d.pricing := by
  unfold applySupplierDevicePackageRule; split <;> rfl

/-- Rule 2 never writes the pricing field. -/
lemma applyOperatingTempRule_pricing (t v : String) (d : ComponentData) :
    (applyOperatingTempRule t v d).pricing = d.pricing := by
  unfold applyOperatingTempRule; split <;> rfl

/-- Rule 3 never writes the pricing field. -/
lemma applyDimensionRule_pricing (t v : String) (d : ComponentData) :
    (applyDimensionRule t v d).pricing = d.pricing := by
  unfold applyDimensionRule; split <;> rfl

/-- Rule 4 never writes the pricing field. -/
lemma applyHeightRule_pricing (t v : String) (d : ComponentData) :
    (applyHeightRule t v d).pricing = d.pricing := by
  unfold applyHeightRule; split <;> rfl

/-- Rule 5 never writes the pricing field. -/
lemma applyThicknessRule_pricing (t v : String) (d : ComponentData) :
    (applyThicknessRule t v d).pricing = d.pricing := by
  unfold applyThicknessRule; split <;> rfl

/-- Rule 6 never writes the pricing field. -/
lemma applyRatingsRule_pricing (t v : String) (d : ComponentData) :
    (applyRatingsRule t v d).pricing = d.pricing := by
  unfold applyRatingsRule; split <;> rfl

/-- Rule 7 never writes the pricing field. -/
lemma applyGradeRule_pricing (t v : String) (d : ComponentData) :
    (applyGradeRule t v d).pricing = d.pricing := by
  unfold applyGradeRule; split <;> rfl

/-- Rule 8 never writes the pricing field. -/
lemma applyQualificationRule_pricing (t v : String) (d : ComponentData) :
    (applyQualificationRule t v d).pricing = d.pricing := by
  unfold applyQualificationRule; split <;> rfl

/-- The parameter scan never touches the pricing field. -/
lemma scanParameter_pricing (d : ComponentData) (p : Parameter) :
    (scanParameter d p).pricing = d.pricing := by
  obtain ⟨pt, v⟩ := p
  cases pt with
  | none => rfl
  | some t =>
      simp only [scanParameter, applyQualificationRule_pricing, applyGradeRule_pricing,
        applyRatingsRule_pricing, applyThicknessRule_pricing, applyHeightRule_pricing,
        applyDimensionRule_pricing, applyOperatingTempRule_pricing,
        applySupplierDevicePackageRule_pricing, applyPackageCaseRule_pricing]

/-- Folding the parameter scan never touches the pricing field. -/
lemma foldl_scanParameter_pricing (l : List Parameter) (d : ComponentData) :
    (l.foldl scanParameter d).pricing = d.pricing := by
  induction l generalizing d with
  | nil => rfl
  | cons a l ih => rw [List.foldl_cons, ih, scanParameter_pricing]

/-- The record built for a matched product stores the merged variations
list in its pricing field. -/
lemma buildComponentData_pricing (pd mn mpn photo ds pu : String) (qa : Nat) (stv : String)
    (eol disc : Bool) (pv : List ProductVariation) (params : List Parameter)
    (c : Option Classifications) (cat : Category) :
    (buildComponentData pd mn mpn photo ds pu qa stv eol disc pv params c cat).pricing =
      some (mergeCutTapeDigiReel pv) := by
  dsimp only [buildComponentData]
  rw [foldl_scanParameter_pricing]

/-- Reading off the first Cut Tape index: the indexed variant exists, its
name contains the Cut Tape marker, and the index is in range. -/
lemma cutTapeIdxs_head?_facts {pv : List ProductVariation} {i : Nat}
    (hi : (cutTapeIdxs (pv.map (·.PackageType))).head? = some i) :
    ∃ ct, pv[i]? = some ct ∧ strContainsSub ct.PackageType "Cut Tape" = true
      ∧ i < pv.length := by
  cases hc : cutTapeIdxs (pv.map (·.PackageType)) with
  | nil => rw [hc] at hi; cases hi
  | cons a l =>
      rw [hc, List.head?_cons] at hi
      obtain rfl : i = a := (Option.some.inj hi).symm
      have him : i ∈ cutTapeIdxs (pv.map (·.PackageType)) := by
        rw [hc]; exact List.mem_cons_self i l
      unfold cutTapeIdxs at him
      obtain ⟨hr, hcontains⟩ := List.mem_filter.mp him
      have hlen : i < pv.length := by
        have := List.mem_range.mp hr
        simpa using this
      obtain ⟨ct, hct⟩ : ∃ ct, pv[i]? = some ct := by
        rw [List.getElem?_eq_getElem hlen]; exact ⟨_, rfl⟩
      have hgetD : strContainsSub ((pv.map (·.PackageType)).getD i "") "Cut Tape" = true :=
        hcontains
      rw [List.getD_eq_getElem?_getD, List.getElem?_map, hct] at hgetD
      exact ⟨ct, hct, hgetD, hlen⟩

/-- Reading off the first Digi-Reel index, symmetrically. -/
lemma digiReelIdxs_head?_facts {pv : List ProductVariation} {j : Nat}
    (hj : (digiReelIdxs (pv.map (·.PackageType))).head? = some j) :
    ∃ dr, pv[j]? = some dr ∧ strContainsSub dr.PackageType "Digi-Reel" = true
      ∧ j < pv.length := by
  cases hc : digiReelIdxs (pv.map (·.PackageType)) with
  | nil => rw [hc] at hj; cases hj
  | cons a l =>
      rw [hc, List.head?_cons] at hj
      obtain rfl : j = a := (Option.some.inj hj).symm
      have him : j ∈ digiReelIdxs (pv.map (·.PackageType)) := by
        rw [hc]; exact List.mem_cons_self j l
      unfold digiReelIdxs at him
      obtain ⟨hr, hcontains⟩ := List.mem_filter.mp him
      have hlen : j < pv.length := by
        have := List.mem_range.mp hr
        simpa using this
      obtain ⟨dr, hdr⟩ : ∃ dr, pv[j]? = some dr := by
        rw [List.getElem?_eq_getElem hlen]; exact ⟨_, rfl⟩
      have hgetD : strContainsSub ((pv.map (·.PackageType)).getD j "") "Digi-Reel" = true :=
        hcontains
      rw [List.getD_eq_getElem?_getD, List.getElem?_map, hdr] at hgetD
      exact ⟨dr, hdr, hgetD, hlen⟩

/-- The merge, expressed as rename-at-the-first-Cut-Tape-index followed by
deletion of the first Digi-Reel index. -/
lemma mergeCutTapeDigiReel_set_erase {pv : List ProductVariation} {i j : Nat}
    (hi : (cutTapeIdxs (pv.map (·.PackageType))).head? = some i)
    (hj : (digiReelIdxs (pv.map (·.PackageType))).head? = some j)
    {ct : ProductVariation} (hct : pv[i]? = some ct) :
    mergeCutTapeDigiReel pv =
      (pv.set i { ct with PackageType := mergedVariantName }).eraseIdx j := by
  unfold mergeCutTapeDigiReel
  simp only [hi, hj, hct]

/-- C2 counterexample: with both a Cut Tape and a Digi-Reel variant in the
payload, the pricing table extraction produces carries no variant named
without the registered-trademark sign, and exactly one named with it. -/
theorem c2_counterexample :
    (extract_data_from_digikey_search_response cex2Payload).map
        (fun x => ((x.1.pricing.getD []).filter
            (fun v => v.PackageType == "Cut Tape (CT) & Digi-Reel")).length) =
      Except.ok 0
    ∧ (extract_data_from_digikey_search_response cex2Payload).map
        (fun x => ((x.1.pricing.getD []).filter
            (fun v => v.PackageType == "Cut Tape (CT) & Digi-Reel®")).length) =
      Except.ok 1
    ∧ strContainsSub "Cut Tape" "Cut Tape" = true
    ∧ strContainsSub "Digi-Reel" "Digi-Reel" = true := by
  refine ⟨?_, ?_, rfl, rfl⟩ <;> rfl

/-- C2 amended: when the variations list has a first Cut Tape index i and a
first Digi-Reel index j, and no single variant name carries both markers,
the merged list is the input with the variant at i renamed to
"Cut Tape (CT) & Digi-Reel®" (keeping its price breaks) and the variant at
j removed; the renamed variant is the only one bearing the merged name, and
the pricing table the extraction stores is exactly this merged list. -/
theorem c2_cut_tape_digi_reel_merge (pv : List ProductVariation) (i j : Nat)
    (hi : (cutTapeIdxs (pv.map (·.PackageType))).head? = some i)
    (hj : (digiReelIdxs (pv.map (·.PackageType))).head? = some j)
    (hsep : ∀ v ∈ pv, ¬(strContainsSub v.PackageType "Cut Tape" = true ∧
        strContainsSub v.PackageType "Digi-Reel" = true)) :
    ∃ ct, pv[i]? = some ct
      ∧ mergeCutTapeDigiReel pv =
          (pv.set i { ct with PackageType := mergedVariantName }).eraseIdx j
      ∧ (mergeCutTapeDigiReel pv).filter (fun v => v.PackageType == mergedVariantName) =
          [{ ct with PackageType := mergedVariantName }]
      ∧ ∀ (q : SearchResponse) (m : Product) (rest : List Product)
          (desc : DescriptionObj) (pd : String) (mfr : ManufacturerObj) (mn : String)
          (mpn photo ds pu : String) (qa : Nat) (st : ProductStatusObj) (stv : String)
          (eol disc : Bool) (params : List Parameter) (cat : Category),
          q.ExactMatches = some (m :: rest) →
          m.Description = some desc → desc.ProductDescription = some pd →
          m.Manufacturer = some mfr → mfr.Name = some mn →
          m.ManufacturerProductNumber = some mpn →
          m.PhotoUrl = some photo → m.DatasheetUrl = some ds → m.ProductUrl = some pu →
          m.QuantityAvailable = some qa →
          m.ProductStatus = some st → st.Status = some stv →
          m.EndOfLife = some eol → m.Discontinued = some disc →
          m.ProductVariations = some pv → m.Parameters = some params →
          m.Category = some cat →
          ∃ d p2, extract_data_from_digikey_search_response q = Except.ok (d, p2)
            ∧ d.pricing = some (mergeCutTapeDigiReel pv) := by
  obtain ⟨ct, hct, hctCT, hilen⟩ := cutTapeIdxs_head?_facts hi
  obtain ⟨dr, hdr, hdrDR, hjlen⟩ := digiReelIdxs_head?_facts hj
  have hctmem : ct ∈ pv := List.getElem?_mem hct
  have hctnotDR : strContainsSub ct.PackageType "Digi-Reel" = false := by
    cases hcs : strContainsSub ct.PackageType "Digi-Reel"
    · rfl
    · exact absurd ⟨hctCT, hcs⟩ (hsep ct hctmem)
  have hij : i ≠ j := by
    intro he
    rw [he, hdr] at hct
    obtain rfl : dr = ct := Option.some.inj hct
    rw [hctnotDR] at hdrDR
    cases hdrDR
  have hmerge := mergeCutTapeDigiReel_set_erase hi hj hct
  have hpred : ∀ v ∈ pv, (v.PackageType == mergedVariantName) = false := by
    intro v hv
    cases hb : v.PackageType == mergedVariantName
    · rfl
    · refine absurd ⟨?_, ?_⟩ (hsep v hv)
      · rw [eq_of_beq hb]; decide
      · rw [eq_of_beq hb]; decide
  have hpredrct :
      (({ ct with PackageType := mergedVariantName } : ProductVariation).PackageType ==
        mergedVariantName) = true := beq_self_eq_true _
  have hset : pv.set i { ct with PackageType := mergedVariantName } =
      pv.take i ++ { ct with PackageType := mergedVariantName } :: pv.drop (i + 1) :=
    List.set_eq_take_cons_drop _ hilen
  have hTlen : (pv.take i).length = i := List.length_take_of_le (Nat.le_of_lt hilen)
  have hfilsub : ∀ L : List ProductVariation, (∀ x ∈ L, x ∈ pv) →
      L.filter (fun v => v.PackageType == mergedVariantName) = [] := by
    intro L hL
    refine List.filter_eq_nil_iff.mpr fun a ha => ?_
    simp [hpred a (hL a ha)]
  have hfilter : (mergeCutTapeDigiReel pv).filter
      (fun v => v.PackageType == mergedVariantName) =
      [{ ct with PackageType := mergedVariantName }] := by
    rw [hmerge, hset]
    rcases Nat.lt_or_ge j i with hji | hij'
    · rw [List.eraseIdx_append_of_lt_length (by rw [hTlen]; exact hji) _,
        List.filter_append,
        hfilsub _ (fun x hx => List.mem_of_mem_take (List.mem_of_mem_eraseIdx hx))]
      simp [hpredrct, hfilsub _ (fun x hx => List.mem_of_mem_drop hx)]
    · have hij2 : i < j := Nat.lt_of_le_of_ne hij' hij
      rw [List.eraseIdx_append_of_length_le (by rw [hTlen]; exact Nat.le_of_lt hij2) _]
      have hsub : j - (pv.take i).length = (j - i - 1) + 1 := by
        rw [hTlen]
        omega
      rw [hsub, List.eraseIdx_cons_succ, List.filter_append,
        hfilsub _ (fun x hx => List.mem_of_mem_take hx)]
      simp [hpredrct, hfilsub _ (fun x hx =>
        List.mem_of_mem_drop (List.mem_of_mem_eraseIdx hx))]
  refine ⟨ct, hct, hmerge, hfilter, ?_⟩
  intro q m rest desc pd mfr mn mpn photo ds pu qa st stv eol disc params cat
  intro g1 g2 g3 g4 g5 g6 g7 g8 g9 g10 g11 g12 g13 g14 g15 g16 g17
  refine ⟨_, _, extract_matched_ok q m rest g1 desc pd mfr mn mpn photo ds pu qa st stv
    eol disc pv params cat g2 g3 g4 g5 g6 g7 g8 g9 g10 g11 g12 g13 g14 g15 g16 g17, ?_⟩
  exact buildComponentData_pricing pd mn mpn photo ds pu qa stv eol disc pv params
    m.Classifications cat

/-- Witness for C2 at the concrete two-variant list of the counterexample
payload. -/
theorem c2_cut_tape_digi_reel_merge_witness :
    ∃ ct, cex2Variations[0]? = some ct
      ∧ mergeCutTapeDigiReel cex2Variations =
          (cex2Variations.set 0 { ct with PackageType := mergedVariantName }).eraseIdx 1
      ∧ (mergeCutTapeDigiReel cex2Variations).filter
          (fun v => v.PackageType == mergedVariantName) =
          [{ ct with PackageType := mergedVariantName }]
      ∧ ∀ (q : SearchResponse) (m : Product) (rest : List Product)
          (desc : DescriptionObj) (pd : String) (mfr : ManufacturerObj) (mn : String)
          (mpn photo ds pu : String) (qa : Nat) (st : ProductStatusObj) (stv : String)
          (eol disc : Bool) (params : List Parameter) (cat : Category),
          q.ExactMatches = some (m :: rest) →
          m.Description = some desc → desc.ProductDescription = some pd →
          m.Manufacturer = some mfr → mfr.Name = some mn →
          m.ManufacturerProductNumber = some mpn →
          m.PhotoUrl = some photo → m.DatasheetUrl = some ds → m.ProductUrl = some pu →
          m.QuantityAvailable = some qa →
          m.ProductStatus = some st → st.Status = some stv →
          m.EndOfLife = some eol → m.Discontinued = some disc →
          m.ProductVariations = some cex2Variations → m.Parameters = some params →
          m.Category = some cat →
          ∃ d p2, extract_data_from_digikey_search_response q = Except.ok (d, p2)
            ∧ d.pricing = some (mergeCutTapeDigiReel cex2Variations) :=
  c2_cut_tape_digi_reel_merge cex2Variations 0 1 (by decide) (by decide) (by decide)

end Digikey
